import Mathlib

/-
Shallow embedding of the MoI-Reporting-System backend (FastAPI + SQLAlchemy).

The embedding follows the source files:
  app/services/report_service.py     (ReportService)
  app/services/analytics_service.py  (AnalyticsService)
  app/api/v1/reports.py              (reports router)
  app/api/v1/users.py                (assign_role)
  app/api/v1/admin.py                (admin router)
  app/models/report.py, app/models/attachment.py, app/models/user.py
  app/schemas/report.py, app/schemas/attachment.py, app/schemas/user.py,
  app/schemas/analytics.py

Conventions:
  - Timestamps are modelled as natural numbers (an abstract UTC clock value).
  - The SQLAlchemy session is modelled as an explicit database state (lists of
    rows); a transactional commit is modelled by a Boolean parameter
    (commitOk): commit success applies the pending writes, commit failure
    leaves the state unchanged (rollback) and the service raises HTTPException.
  - Python ints that the API layer validates as non-negative (skip, limit,
    counts) are modelled as Nat.
  - Generated identifiers (uuid-based report and attachment ids) are supplied
    as explicit parameters, since the source draws them from a random source.
-/

namespace MoI

/-- HTTPException as raised by the services and routers: a status code plus a
detail string.  The embedding keeps only the constant prefix of f-string
details (the interpolated exception text is environment-dependent). -/
structure HTTPError where
  statusCode : Nat
  detail : String
deriving DecidableEq

/-- ReportStatus enum from app/schemas/report.py. -/
inductive ReportStatus where
  | submitted
  | assigned
  | inProgress
  | resolved
  | rejected
deriving DecidableEq

/-- String value of a ReportStatus member (it is a str Enum in the source). -/
def ReportStatus.value : ReportStatus → String
  | .submitted => "Submitted"
  | .assigned => "Assigned"
  | .inProgress => "InProgress"
  | .resolved => "Resolved"
  | .rejected => "Rejected"

/-- ReportCategory enum from app/schemas/report.py. -/
inductive ReportCategory where
  | infrastructure
  | utilities
  | crime
  | traffic
  | publicNuisance
  | environmental
  | other
deriving DecidableEq

/-- String value of a ReportCategory member. -/
def ReportCategory.value : ReportCategory → String
  | .infrastructure => "infrastructure"
  | .utilities => "utilities"
  | .crime => "crime"
  | .traffic => "traffic"
  | .publicNuisance => "public_nuisance"
  | .environmental => "environmental"
  | .other => "other"

/-- AttachmentCreate input schema from app/schemas/attachment.py.
fileType is kept as the string value of the FileType str Enum; blobStorageUri
is kept as the string form the service stores (str(att_data.blobStorageUri)). -/
structure AttachmentCreate where
  blobStorageUri : String
  mimeType : String
  fileType : String
  fileSizeBytes : Nat
deriving DecidableEq

/-- Attachment ORM row from app/models/attachment.py.  The same field set is
used for the attachment dictionaries the service builds for responses
(AttachmentResponse has exactly these fields). -/
structure Attachment where
  attachmentId : String
  reportId : String
  blobStorageUri : String
  mimeType : String
  fileType : String
  fileSizeBytes : Nat
deriving DecidableEq

/-- Report ORM row from app/models/report.py.  locationRaw is modelled as
String: the column is nullable in the schema, but the only in-scope write path
(create_report) always stores the validated input string, and every read path
feeds it to the non-optional ReportResponse.location field. -/
structure Report where
  reportId : String
  userId : Option String
  title : String
  descriptionText : String
  locationRaw : String
  status : String
  categoryId : String
  aiConfidence : Option Rat
  transcribedVoiceText : Option String
  createdAt : Nat
  updatedAt : Nat
deriving DecidableEq

/-- ReportCreate input schema from app/schemas/report.py. -/
structure ReportCreate where
  title : String
  descriptionText : String
  categoryId : Option ReportCategory
  location : String
  transcribedVoiceText : Option String
  isAnonymous : Bool
  hashedDeviceId : Option String
  attachments : List AttachmentCreate
deriving DecidableEq

/-- ReportStatusUpdate input schema from app/schemas/report.py: a status plus
optional admin notes. -/
structure ReportStatusUpdate where
  status : ReportStatus
  notes : Option String
deriving DecidableEq

/-- ReportResponse output schema from app/schemas/report.py.  status and
categoryId are kept as the strings the service passes in (pydantic coerces
them back to the str enums); the key point of the shape is that the stored
locationRaw value is surfaced under the field name location. -/
structure ReportResponse where
  reportId : String
  title : String
  descriptionText : String
  categoryId : String
  status : String
  location : String
  aiConfidence : Option Rat
  createdAt : Nat
  updatedAt : Nat
  userId : Option String
  transcribedVoiceText : Option String
  attachments : List Attachment
deriving DecidableEq

/-- ReportListResponse output schema from app/schemas/report.py. -/
structure ReportListResponse where
  reports : List ReportResponse
  total : Nat
  page : Nat
  pageSize : Nat
  totalPages : Nat
deriving DecidableEq

/-- Operational database state: the Report and Attachment tables. -/
structure DB where
  reports : List Report
  attachments : List Attachment
deriving DecidableEq

/-- Rows of the Attachment table that reference a given report id.  This is
what selectinload(Report.attachments) materialises for a report. -/
def attachmentsOf (db : DB) (rid : String) : List Attachment :=
  db.attachments.filter (fun a => a.reportId == rid)

/-- The response dictionary the service builds from a loaded Report row:
locationRaw is surfaced as location, attachments come from the relationship. -/
def reportToResponse (db : DB) (r : Report) : ReportResponse :=
  { reportId := r.reportId
    title := r.title
    descriptionText := r.descriptionText
    categoryId := r.categoryId
    status := r.status
    location := r.locationRaw
    aiConfidence := r.aiConfidence
    createdAt := r.createdAt
    updatedAt := r.updatedAt
    userId := r.userId
    transcribedVoiceText := r.transcribedVoiceText
    attachments := attachmentsOf db r.reportId }

/-- Insertion step for the insertion sort used to model an SQL ORDER BY. -/
def insertBy (le : α → α → Bool) (a : α) : List α → List α
  | [] => [a]
  | b :: l => if le a b then a :: b :: l else b :: insertBy le a l

/-- Insertion sort modelling an SQL ORDER BY with comparison le. -/
def sortBy (le : α → α → Bool) : List α → List α
  | [] => []
  | a :: l => insertBy le a (sortBy le l)

theorem mem_insertBy (le : α → α → Bool) (a b : α) (l : List α) :
    b ∈ insertBy le a l ↔ b = a ∨ b ∈ l := by
  induction l with
  | nil => simp [insertBy]
  | cons c l ih =>
    simp only [insertBy]
    by_cases h : le a c = true
    · simp [h]
    · simp only [if_neg h, List.mem_cons, ih]
      tauto

theorem mem_sortBy (le : α → α → Bool) (b : α) (l : List α) :
    b ∈ sortBy le l ↔ b ∈ l := by
  induction l with
  | nil => simp [sortBy]
  | cons a l ih => simp [sortBy, mem_insertBy, ih]

/-- Python truthiness of an Optional[str] value: None and the empty string are
falsy, every other string is truthy. -/
def pyTruthy : Option String → Bool
  | none => false
  | some s => !s.isEmpty

namespace ReportService

/-- Attachment rows built by the creation loop of ReportService.create_report:
one Attachment per input attachment, carrying a generated id (attachment_id i
models str(uuid.uuid4()) for the i-th iteration) and linked to the new report
id. -/
def newAttachments (report_data : ReportCreate) (report_id : String)
    (attachment_id : Nat → String) : List Attachment :=
  report_data.attachments.enum.map fun ia =>
    { attachmentId := attachment_id ia.1
      reportId := report_id
      blobStorageUri := ia.2.blobStorageUri
      mimeType := ia.2.mimeType
      fileType := ia.2.fileType
      fileSizeBytes := ia.2.fileSizeBytes }

/-- ReportService.create_report from app/services/report_service.py.

Parameters beyond the source signature model the environment:
report_id is the generated "R-XXXXXXXX" identifier, attachment_id i is the
uuid generated for the i-th attachment, now is utcnow(), and commitOk is the
outcome of the transactional db.commit().  On commit success the report row
and all attachment rows become visible and the response is built manually
from the new objects (locationRaw surfaced as location); on commit failure
the session is rolled back (state unchanged) and HTTPException 500 is
raised. -/
def create_report (db : DB) (report_data : ReportCreate) (user_id : Option String)
    (report_id : String) (attachment_id : Nat → String) (now : Nat)
    (commitOk : Bool) : Except HTTPError ReportResponse × DB :=
  let db_report : Report :=
    { reportId := report_id
      userId := user_id
      title := report_data.title
      descriptionText := report_data.descriptionText
      locationRaw := report_data.location
      status := "Submitted"
      categoryId :=
        match report_data.categoryId with
        | some c => c.value
        | none => "other"
      aiConfidence := none
      transcribedVoiceText := report_data.transcribedVoiceText
      createdAt := now
      updatedAt := now }
  let attachment_orms : List Attachment :=
    newAttachments report_data report_id attachment_id
  if commitOk then
    ( Except.ok
        { reportId := db_report.reportId
          title := db_report.title
          descriptionText := db_report.descriptionText
          categoryId := db_report.categoryId
          status := db_report.status
          location := db_report.locationRaw
          aiConfidence := db_report.aiConfidence
          createdAt := db_report.createdAt
          updatedAt := db_report.updatedAt
          userId := db_report.userId
          transcribedVoiceText := db_report.transcribedVoiceText
          attachments := attachment_orms },
      { reports := db.reports ++ [db_report]
        attachments := db.attachments ++ attachment_orms } )
  else
    (Except.error { statusCode := 500, detail := "Failed to create report: " }, db)

/-- ReportService.get_report: select the report by primary key
(scalar_one_or_none), return None when absent, otherwise the response with
attachments eagerly loaded and locationRaw surfaced as location. -/
def get_report (db : DB) (report_id : String) : Option ReportResponse :=
  match db.reports.find? (fun r => r.reportId == report_id) with
  | none => none
  | some report => some (reportToResponse db report)

/-- Filter applied to the listing query in ReportService.list_reports: each
truthy filter adds an equality where-clause. -/
def main_filter (status category : Option String) (r : Report) : Bool :=
  (if pyTruthy status then r.status == (status.getD "") else true) &&
  (if pyTruthy category then r.categoryId == (category.getD "") else true)

/-- Filter list built for the count query in ReportService.list_reports.
The source expression is

  [Report.status == status] if status else []
  + [Report.categoryId == category] if category else []

which Python parses as

  [Report.status == status] if status
  else (([] + [Report.categoryId == category]) if category else [])

so when the status filter is truthy the category filter never reaches the
count query. -/
def count_filters (status category : Option String) : List (Report → Bool) :=
  if pyTruthy status then [fun r => r.status == (status.getD "")]
  else if pyTruthy category then [fun r => r.categoryId == (category.getD "")]
  else []

/-- ReportService.list_reports: total comes from the count query built with
count_filters; the page of rows comes from the main query with both filters,
ordered by createdAt descending, with offset skip and limit applied.  The
pagination fields guard limit = 0 explicitly. -/
def list_reports (db : DB) (skip : Nat) (limit : Nat)
    (status category : Option String) : ReportListResponse :=
  let total :=
    (db.reports.filter (fun r => (count_filters status category).all (fun p => p r))).length
  let rows :=
    (((sortBy (fun a b => decide (b.createdAt ≤ a.createdAt))
        (db.reports.filter (main_filter status category))).drop skip).take limit)
  { reports := rows.map (fun r => reportToResponse db r)
    total := total
    page := if limit > 0 then skip / limit + 1 else 1
    pageSize := limit
    totalPages := if limit > 0 then (total + limit - 1) / limit else 1 }

/-- ReportService.update_report_status: select by id; None when absent
(session untouched); otherwise mutate exactly status and updatedAt on the
selected row and commit.  Commit failure rolls back (state unchanged) and
raises HTTPException 500.  reportId is the primary key, so the in-place ORM
mutation of the selected object is modelled as a map over the table that
rewrites the rows carrying this id. -/
def update_report_status (db : DB) (report_id : String)
    (status_update : ReportStatusUpdate) (now : Nat) (commitOk : Bool) :
    Except HTTPError (Option ReportResponse) × DB :=
  match db.reports.find? (fun r => r.reportId == report_id) with
  | none => (Except.ok none, db)
  | some report =>
    let updated : Report :=
      { report with status := status_update.status.value, updatedAt := now }
    if commitOk then
      let db2 : DB :=
        { db with
            reports := db.reports.map fun x =>
              if x.reportId == report_id then
                { x with status := status_update.status.value, updatedAt := now }
              else x }
      (Except.ok (some (reportToResponse db2 updated)), db2)
    else
      (Except.error { statusCode := 500, detail := "Failed to update report status: " }, db)

/-- ReportService.delete_report: select by id; False when absent (no error);
otherwise delete the row — the ORM cascade "all, delete-orphan" on
Report.attachments removes every attachment row referencing the report — and
commit.  Commit failure rolls back and raises HTTPException 500.  reportId is
the primary key, so deleting the selected object removes exactly the rows
carrying this id. -/
def delete_report (db : DB) (report_id : String) (commitOk : Bool) :
    Except HTTPError Bool × DB :=
  match db.reports.find? (fun r => r.reportId == report_id) with
  | none => (Except.ok false, db)
  | some _ =>
    if commitOk then
      ( Except.ok true,
        { reports := db.reports.filter (fun r => !(r.reportId == report_id))
          attachments := db.attachments.filter (fun a => !(a.reportId == report_id)) } )
    else
      (Except.error { statusCode := 500, detail := "Failed to delete report: " }, db)

end ReportService

/-- A Python coroutine object: what a call to an async def returns when it is
not awaited.  The wrapped value is what awaiting the coroutine would produce;
the object itself is distinct from that value. -/
structure Coroutine (α : Type) where
  suspended : α
deriving DecidableEq

/-- Calling an async def without await: the body does not run, a coroutine
object wrapping the would-be result is returned. -/
def callAsync (f : Unit → α) : Coroutine α :=
  { suspended := f () }

/-- Python truthiness of a coroutine object: an object of a class without
truthiness overrides is always truthy. -/
def Coroutine.pyBool (_ : Coroutine α) : Bool :=
  true

namespace ReportsAPI

/-- POST / handler from app/api/v1/reports.py: returns
ReportService.create_report(db, report, user_id=None) without await.  The
call itself cannot raise (it just builds a coroutine), so the except branch
that would map errors to HTTP 500 is modelled as unreachable in the returned
value. -/
def create_report (db : DB) (report : ReportCreate) (report_id : String)
    (attachment_id : Nat → String) (now : Nat) (commitOk : Bool) :
    Except HTTPError (Coroutine (Except HTTPError ReportResponse × DB)) :=
  Except.ok (callAsync fun _ =>
    ReportService.create_report db report none report_id attachment_id now commitOk)

/-- GET / handler: returns ReportService.list_reports(...) without await. -/
def list_reports (db : DB) (skip : Nat) (limit : Nat)
    (status category : Option String) : Coroutine ReportListResponse :=
  callAsync fun _ => ReportService.list_reports db skip limit status category

/-- GET /report_id handler from app/api/v1/reports.py:

  report = ReportService.get_report(db, report_id)   — no await
  if not report: raise HTTPException(404, ...)
  return report

The branch tests the truthiness of the coroutine object. -/
def get_report (db : DB) (report_id : String) :
    Except HTTPError (Coroutine (Option ReportResponse)) :=
  let report := callAsync fun _ => ReportService.get_report db report_id
  if report.pyBool then Except.ok report
  else
    Except.error { statusCode := 404, detail := "Report not found" }

/-- PUT /report_id/status handler: same shape as the GET handler, with the
unawaited ReportService.update_report_status call. -/
def update_report_status (db : DB) (report_id : String)
    (status_update : ReportStatusUpdate) (now : Nat) (commitOk : Bool) :
    Except HTTPError (Coroutine (Except HTTPError (Option ReportResponse) × DB)) :=
  let report := callAsync fun _ =>
    ReportService.update_report_status db report_id status_update now commitOk
  if report.pyBool then Except.ok report
  else
    Except.error { statusCode := 404, detail := "Report not found" }

/-- DELETE /report_id handler: success = ReportService.delete_report(...)
without await; if not success: 404; else return None (HTTP 204). -/
def delete_report (db : DB) (report_id : String) (commitOk : Bool) :
    Except HTTPError Unit :=
  let success := callAsync fun _ => ReportService.delete_report db report_id commitOk
  if success.pyBool then Except.ok ()
  else
    Except.error { statusCode := 404, detail := "Report not found" }

end ReportsAPI

/-- UserRole enum from app/schemas/user.py. -/
inductive UserRole where
  | citizen
  | officer
  | admin
deriving DecidableEq

/-- String value of a UserRole member (it is a str Enum in the source). -/
def UserRole.value : UserRole → String
  | .citizen => "citizen"
  | .officer => "officer"
  | .admin => "admin"

/-- User ORM row from app/models/user.py.  role is stored as a string. -/
structure User where
  userId : String
  isAnonymous : Bool
  createdAt : Nat
  role : String
  email : Option String
  phoneNumber : Option String
  hashedDeviceId : Option String
deriving DecidableEq

/-- Attribute names defined on the User ORM class in app/models/user.py:
the mapped columns plus the reports relationship.  There is no passwordHash
attribute. -/
def userModelAttributes : List String :=
  ["userId", "isAnonymous", "createdAt", "role", "email", "phoneNumber",
   "hashedDeviceId", "reports"]

/-- Outcome of the role-assignment endpoint. -/
inductive AssignRoleOutcome where
  | forbidden (detail : String)
  | invalidOperation (detail : String)
  | updated
deriving DecidableEq

namespace UsersAPI

/-- PUT /user_id/role handler from app/api/v1/users.py.

The admin gate compares the stored role string against "admin" and against
UserRole.ADMIN (a str Enum member equal to its value "admin").  The
self-demotion guard rejects an admin targeting their own id with a non-admin
role (HTTP 400).  Only past both guards is UserService.update_role invoked;
update_role lives in app/services/user_service.py, which is outside the
in-scope sources, so it is passed in as a parameter — both failure branches
raise before it runs, leaving the user table unchanged.  The result pairs the
outcome with the resulting user table. -/
def assign_role (db : List User) (user_id : String) (role_data : UserRole)
    (current_user : User)
    (update_role : List User → String → UserRole → List User) :
    AssignRoleOutcome × List User :=
  if current_user.role != "admin" && current_user.role != UserRole.admin.value then
    (AssignRoleOutcome.forbidden "Not authorized. Admin privileges required.", db)
  else if user_id == current_user.userId && role_data != UserRole.admin then
    (AssignRoleOutcome.invalidOperation "You cannot demote yourself.", db)
  else
    (AssignRoleOutcome.updated, update_role db user_id role_data)

end UsersAPI

/-- MonthlyCategoryCount schema from app/schemas/analytics.py. -/
structure MonthlyCategoryCount where
  year : Nat
  month : Nat
  category : String
  count : Nat
deriving DecidableEq

/-- UserListResponse schema from app/schemas/analytics.py (admin user view,
including the sensitive hashed_device_id and password_hash fields). -/
structure UserListResponse where
  user_id : String
  email : Option String
  phone_number : Option String
  role : String
  is_anonymous : Bool
  created_at : Nat
  hashed_device_id : Option String
  password_hash : Option String
deriving DecidableEq

/-- UserDemographicResponse schema from app/schemas/analytics.py. -/
structure UserDemographicResponse where
  role : String
  is_anonymous : Bool
  account_age_segment : String
  user_count : Nat
deriving DecidableEq

/-- DashboardStatsResponse schema from app/schemas/analytics.py.  Breakdown
dictionaries are modelled as association lists. -/
structure DashboardStatsResponse where
  totalReports : Nat
  hotReports : Nat
  coldReports : Nat
  statusBreakdown : List (String × Nat)
  categoryBreakdown : List (String × Nat)
  avgAiConfidence : Rat
  anonymousReports : Nat
  registeredReports : Nat
  monthlyCategoryCounts : List MonthlyCategoryCount
  demographiCounts : List UserDemographicResponse
  UsersList : List UserListResponse
deriving DecidableEq

/-- Row of the hot or cold fact table queried by the analytics service
(HotFactReport / ColdFactReport in app/models/analytics.py; the model file is
outside the in-scope sources, its columns are those the service reads).
createdAt is kept as its (year, month) parts, which is all the service
extracts. -/
structure FactReport where
  reportId : String
  title : String
  status : String
  categoryId : String
  aiConfidence : Option Rat
  isAnonymous : Bool
  createdYear : Nat
  createdMonth : Nat
deriving DecidableEq

/-- Analytics database state: the hot fact table, the cold fact table, and a
flag coldOk modelling whether queries against the cold table raise (the
service wraps the cold count in try/except). -/
structure AnalyticsDB where
  hot : List FactReport
  coldOk : Bool
  cold : List FactReport
deriving DecidableEq

/-- GROUP BY key with COUNT over a list of keys, as an association list. -/
def groupCount (l : List String) : List (String × Nat) :=
  l.dedup.map fun s => (s, (l.filter (fun x => x == s)).length)

/-- Rows of the monthly category breakdown query: grouped by
(extract(year, createdAt), extract(month, createdAt), categoryId) with
count(), ordered by year then month ascending. -/
def monthlyRows (l : List FactReport) : List MonthlyCategoryCount :=
  let keys := (l.map fun r => (r.createdYear, r.createdMonth, r.categoryId)).dedup
  (sortBy (fun a b => decide (a.1 < b.1 ∨ (a.1 = b.1 ∧ a.2.1 ≤ b.2.1))) keys).map
    fun k =>
      { year := k.1
        month := k.2.1
        category := k.2.2
        count := (l.filter (fun r =>
            r.createdYear == k.1 && r.createdMonth == k.2.1 && r.categoryId == k.2.2)).length }

namespace AnalyticsService

/-- AnalyticsService.get_hot_monthly_category_breakdown from
app/services/analytics_service.py: returns the grouped rows for the hot
table.  NOTE: in the source file this method ends with that return statement
at line 87; the DashboardStatsResponse construction that follows it at lines
92 to 101 is unreachable code and is therefore not part of this definition. -/
def get_hot_monthly_category_breakdown (db : AnalyticsDB) : List MonthlyCategoryCount :=
  monthlyRows db.hot

/-- AnalyticsService.get_dashboard_stats from
app/services/analytics_service.py, lines 14 to 51.

The body computes hot_count, cold_count (try/except degrades a raising cold
query to 0, and scalar() or 0 degrades an empty result to 0), total_reports,
the status and category breakdowns, the average confidence and the anonymous
count — and then the function body ends: the method contains no return
statement.  The return DashboardStatsResponse(...) block that was evidently
meant to close it sits at lines 92 to 101, after the return of
get_hot_monthly_category_breakdown, where it is unreachable.  A Python
function that falls off the end of its body returns None, modelled here as
none. -/
def get_dashboard_stats (db : AnalyticsDB) : Option DashboardStatsResponse :=
  let hot_count := db.hot.length
  let cold_count := if db.coldOk then db.cold.length else 0
  let total_reports := hot_count + cold_count
  let status_counts := groupCount (db.hot.map (fun r => r.status))
  let category_counts := groupCount (db.hot.map (fun r => r.categoryId))
  let confidences := db.hot.filterMap (fun r => r.aiConfidence)
  let avg_confidence : Rat :=
    if confidences.length = 0 then 0 else confidences.sum / confidences.length
  let anonymous_count := (db.hot.filter (fun r => r.isAnonymous)).length
  let _ := (total_reports, status_counts, category_counts, avg_confidence, anonymous_count)
  none

/-- Column attributes requested by the query in
AnalyticsService.get_all_users_list. -/
def get_all_users_list_columns : List String :=
  ["userId", "email", "phoneNumber", "role", "isAnonymous", "createdAt",
   "hashedDeviceId", "passwordHash"]

/-- AnalyticsService.get_all_users_list from
app/services/analytics_service.py: builds db.query(User.userId, ...,
User.passwordHash) ordered by createdAt descending.  Each User.name access
resolves an attribute of the User ORM class before the database is touched;
a name not defined on the class raises AttributeError.  On success the rows
are the users ordered by createdAt descending. -/
def get_all_users_list (db : List User) : Except String (List User) :=
  match get_all_users_list_columns.find? (fun c => !(userModelAttributes.contains c)) with
  | some c => Except.error ("type object User has no attribute " ++ c)
  | none => Except.ok (sortBy (fun a b => decide (b.createdAt ≤ a.createdAt)) db)

end AnalyticsService

namespace AdminAPI

/-- GET /users/list handler from app/api/v1/admin.py: calls
AnalyticsService.get_all_users_list inside try/except; any exception is
mapped to HTTPException 500.  On success it would build one dictionary per
row including password_hash and hashed_device_id (the UserListResponse
shape); since building those dictionaries also reads row.passwordHash, the
success value is modelled as the rows themselves. -/
def get_all_users_list (db : List User) : Except HTTPError (List User) :=
  match AnalyticsService.get_all_users_list db with
  | Except.error e =>
    Except.error { statusCode := 500, detail := "Failed to get users list: " ++ e }
  | Except.ok rows => Except.ok rows

end AdminAPI

/-! Concrete fixtures used to instantiate the theorems below. -/

/-- A stored report row, matching the scenario data of the specification. -/
def sampleReport : Report :=
  { reportId := "R-00000001"
    userId := none
    title := "Broken Streetlight"
    descriptionText := "The light is flickering heavily."
    locationRaw := "Corner of King Faisal St and Main St"
    status := "Submitted"
    categoryId := "infrastructure"
    aiConfidence := none
    transcribedVoiceText := none
    createdAt := 5
    updatedAt := 5 }

/-- An attachment row belonging to sampleReport. -/
def sampleAttachment : Attachment :=
  { attachmentId := "A-1"
    reportId := "R-00000001"
    blobStorageUri := "https://azure.com/evidence.jpg"
    mimeType := "image/jpeg"
    fileType := "image"
    fileSizeBytes := 5000 }

/-- A one-report database state. -/
def sampleDB : DB :=
  { reports := [sampleReport], attachments := [sampleAttachment] }

/-- A creation input with one attachment, matching the scenario of the
specification. -/
def sampleCreate : ReportCreate :=
  { title := "Broken Streetlight"
    descriptionText := "The light is flickering heavily."
    categoryId := some ReportCategory.infrastructure
    location := "Corner of King Faisal St and Main St"
    transcribedVoiceText := none
    isAnonymous := true
    hashedDeviceId := none
    attachments :=
      [{ blobStorageUri := "https://azure.com/evidence.jpg"
         mimeType := "image/jpeg"
         fileType := "image"
         fileSizeBytes := 5000 }] }

/-! Claim theorems. -/

/-- C1: the claim states that get_dashboard_stats succeeds on every hot-store
state and returns a KPI bundle with totalReports = hotCount + coldCount.  The
source function computes the KPIs but contains no return statement — its
return DashboardStatsResponse(...) block sits unreachable after the return of
get_hot_monthly_category_breakdown — so the service returns None for every
analytics-store state, never a KPI bundle, contradicting its own
DashboardStatsResponse return annotation, its docstring and the response
model of the admin endpoint. -/
theorem C1_get_dashboard_stats_returns_none (db : AnalyticsDB) :
    AnalyticsService.get_dashboard_stats db = none := rfl

/-- C2: at a database holding one report with status "Submitted" and category
"infrastructure", list with statusFilter "Submitted" and categoryFilter
"crime" reports total = 1, yet zero rows match both filters (and the page is
empty even though limit exceeds total): the count query drops the category
filter whenever the status filter is supplied, because of the conditional
expression precedence described at count_filters.  This refutes the claim
that total always equals the count of rows matching both supplied filters. -/
theorem C2_total_ignores_category_filter :
    (ReportService.list_reports sampleDB 0 10 (some "Submitted") (some "crime")).total = 1 ∧
    (sampleDB.reports.filter
        (ReportService.main_filter (some "Submitted") (some "crime"))).length = 0 ∧
    (ReportService.list_reports sampleDB 0 10 (some "Submitted") (some "crime")).reports = [] :=
  ⟨rfl, rfl, rfl⟩

/-- C4: every handler of the reports router calls the async ReportService
method without awaiting it, so each call yields a coroutine object.  In
particular the GET-by-id handler tests the truthiness of that always-truthy
coroutine object, so for every database state and report id — present or not
— its 404 branch is never taken and it returns the coroutine object itself
rather than the service response; the PUT and DELETE handlers behave the same
way, and the POST and list handlers likewise return the unawaited coroutine. -/
theorem C4_handlers_never_await :
    (∀ (db : DB) (rid : String),
        ReportsAPI.get_report db rid =
          Except.ok (callAsync fun _ => ReportService.get_report db rid)) ∧
    (∀ (db : DB) (report : ReportCreate) (rid : String) (aid : Nat → String)
        (now : Nat) (c : Bool),
        ReportsAPI.create_report db report rid aid now c =
          Except.ok (callAsync fun _ =>
            ReportService.create_report db report none rid aid now c)) ∧
    (∀ (db : DB) (skip limit : Nat) (st cat : Option String),
        ReportsAPI.list_reports db skip limit st cat =
          callAsync fun _ => ReportService.list_reports db skip limit st cat) ∧
    (∀ (db : DB) (rid : String) (su : ReportStatusUpdate) (now : Nat) (c : Bool),
        ReportsAPI.update_report_status db rid su now c =
          Except.ok (callAsync fun _ =>
            ReportService.update_report_status db rid su now c)) ∧
    (∀ (db : DB) (rid : String) (c : Bool),
        ReportsAPI.delete_report db rid c = Except.ok ()) :=
  ⟨fun _ _ => rfl, fun _ _ _ _ _ _ => rfl, fun _ _ _ _ _ => rfl,
   fun _ _ _ _ _ => rfl, fun _ _ _ => rfl⟩

/-- C10: for every database state the full-user-list query fails while being
built, because it selects User.passwordHash and the User ORM class defines no
passwordHash attribute; consequently the admin users-list endpoint always
takes its error branch (HTTP 500) and its declared row shape, password hash
and hashed device id included, is never produced. -/
theorem C10_users_list_always_fails (db : List User) :
    AnalyticsService.get_all_users_list db =
      Except.error "type object User has no attribute passwordHash" ∧
    AdminAPI.get_all_users_list db =
      Except.error
        { statusCode := 500
          detail := "Failed to get users list: type object User has no attribute passwordHash" } := by
  constructor <;> rfl

theorem mem_newAttachments_reportId (d : ReportCreate) (rid : String)
    (g : Nat → String) (a : Attachment) (ha : a ∈ ReportService.newAttachments d rid g) :
    a.reportId = rid := by
  obtain ⟨ia, _, rfl⟩ := List.mem_map.mp ha
  rfl

theorem length_newAttachments (d : ReportCreate) (rid : String) (g : Nat → String) :
    (ReportService.newAttachments d rid g).length = d.attachments.length := by
  simp [ReportService.newAttachments]

/-- C3: report creation is all-or-nothing.  With a fresh generated id (no
stored report or attachment row references it): if the transactional commit
fails, the caller gets the persistence error (HTTP 500), the state is exactly
the pre-call state, and no report or attachment row carrying the new id is
visible; if the commit succeeds, exactly N attachment rows linked to the new
report id exist, where N is the number of attachments in the input, and the
returned response carries the new id with those N linked attachments. -/
theorem C3_create_report_all_or_nothing (db : DB) (input : ReportCreate)
    (uid : Option String) (rid : String) (aid : Nat → String) (now : Nat)
    (hfreshR : ∀ r ∈ db.reports, r.reportId ≠ rid)
    (hfreshA : ∀ a ∈ db.attachments, a.reportId ≠ rid) :
    ((ReportService.create_report db input uid rid aid now false).1 =
        Except.error { statusCode := 500, detail := "Failed to create report: " } ∧
     (ReportService.create_report db input uid rid aid now false).2 = db ∧
     (∀ r ∈ (ReportService.create_report db input uid rid aid now false).2.reports,
        r.reportId ≠ rid) ∧
     (∀ a ∈ (ReportService.create_report db input uid rid aid now false).2.attachments,
        a.reportId ≠ rid)) ∧
    (((ReportService.create_report db input uid rid aid now true).2.attachments.filter
        (fun a => a.reportId == rid)).length = input.attachments.length ∧
     ∃ resp, (ReportService.create_report db input uid rid aid now true).1 = Except.ok resp ∧
       resp.reportId = rid ∧
       resp.attachments.length = input.attachments.length ∧
       (∀ a ∈ resp.attachments, a.reportId = rid)) := by
  constructor
  · exact ⟨rfl, rfl, hfreshR, hfreshA⟩
  · have hatt : (ReportService.create_report db input uid rid aid now true).2.attachments =
        db.attachments ++ ReportService.newAttachments input rid aid := rfl
    constructor
    · rw [hatt, List.filter_append]
      have h1 : db.attachments.filter (fun a => a.reportId == rid) = [] := by
        refine List.filter_eq_nil_iff.mpr fun a ha => ?_
        simpa using hfreshA a ha
      have h2 : (ReportService.newAttachments input rid aid).filter
          (fun a => a.reportId == rid) = ReportService.newAttachments input rid aid := by
        refine List.filter_eq_self.mpr fun a ha => ?_
        simpa using mem_newAttachments_reportId input rid aid a ha
      rw [h1, h2, List.nil_append, length_newAttachments]
    · refine ⟨_, rfl, rfl, ?_, ?_⟩
      · exact length_newAttachments input rid aid
      · exact fun a ha => mem_newAttachments_reportId input rid aid a ha

/-- Closed instance of C3_create_report_all_or_nothing: creating the sample
input (one attachment) over the sample database with a fresh id stores
exactly one attachment row linked to the new id. -/
theorem C3_create_report_all_or_nothing_witness :
    ((ReportService.create_report sampleDB sampleCreate none "R-0F3A9B2C"
        (fun _ => "A-2") 7 true).2.attachments.filter
        (fun a => a.reportId == "R-0F3A9B2C")).length = sampleCreate.attachments.length :=
  (C3_create_report_all_or_nothing sampleDB sampleCreate none "R-0F3A9B2C"
    (fun _ => "A-2") 7 (by decide) (by decide)).2.1

/-- C5: the field-rename round-trip.  The response of a successful create
carries the input location verbatim under the field location; every read path
(get, list, updateStatus) surfaces the stored locationRaw of the matching
report row under the field location of its response. -/
theorem C5_location_field_rename (db : DB) (input : ReportCreate) (uid : Option String)
    (rid : String) (aid : Nat → String) (now : Nat) :
    (∀ resp, (ReportService.create_report db input uid rid aid now true).1 =
        Except.ok resp → resp.location = input.location) ∧
    (∀ report_id resp, ReportService.get_report db report_id = some resp →
        ∃ r ∈ db.reports, r.reportId = report_id ∧ resp.location = r.locationRaw) ∧
    (∀ skip limit st cat resp,
        resp ∈ (ReportService.list_reports db skip limit st cat).reports →
        ∃ r ∈ db.reports, resp.reportId = r.reportId ∧ resp.location = r.locationRaw) ∧
    (∀ report_id su resp db2,
        ReportService.update_report_status db report_id su now true =
          (Except.ok (some resp), db2) →
        ∃ r ∈ db.reports, r.reportId = report_id ∧ resp.location = r.locationRaw) := by
  refine ⟨?_, ?_, ?_, ?_⟩
  · intro resp h
    have hok : (ReportService.create_report db input uid rid aid now true).1 =
        Except.ok
          { reportId := rid
            title := input.title
            descriptionText := input.descriptionText
            categoryId :=
              match input.categoryId with
              | some c => c.value
              | none => "other"
            status := "Submitted"
            location := input.location
            aiConfidence := none
            createdAt := now
            updatedAt := now
            userId := uid
            transcribedVoiceText := input.transcribedVoiceText
            attachments := ReportService.newAttachments input rid aid } := rfl
    rw [hok] at h
    injection h with h2
    rw [← h2]
  · intro report_id resp h
    unfold ReportService.get_report at h
    cases hf : db.reports.find? (fun r => r.reportId == report_id) with
    | none => rw [hf] at h; cases h
    | some r =>
      rw [hf] at h
      injection h with h2
      refine ⟨r, List.mem_of_find?_eq_some hf, ?_, ?_⟩
      · simpa using List.find?_some hf
      · rw [← h2]; exact rfl
  · intro skip limit st cat resp h
    have hrows : (ReportService.list_reports db skip limit st cat).reports =
        ((((sortBy (fun a b => decide (b.createdAt ≤ a.createdAt))
            (db.reports.filter (ReportService.main_filter st cat))).drop skip).take limit).map
          (fun r => reportToResponse db r)) := rfl
    rw [hrows] at h
    obtain ⟨r, hr, rfl⟩ := List.mem_map.mp h
    have hr2 : r ∈ db.reports := by
      have := List.mem_of_mem_take hr
      have := List.mem_of_mem_drop this
      have := (mem_sortBy _ _ _).mp this
      exact (List.mem_filter.mp this).1
    exact ⟨r, hr2, rfl, rfl⟩
  · intro report_id su resp db2 h
    unfold ReportService.update_report_status at h
    cases hf : db.reports.find? (fun r => r.reportId == report_id) with
    | none => rw [hf] at h; simp at h
    | some r =>
      rw [hf] at h
      injection h with hfst hsnd
      injection hfst with h2
      injection h2 with h3
      refine ⟨r, List.mem_of_find?_eq_some hf, ?_, ?_⟩
      · simpa using List.find?_some hf
      · rw [← h3]; exact rfl

/-- Closed instance of C5_location_field_rename: reading the sample report by
id surfaces its stored locationRaw under the field location. -/
theorem C5_location_field_rename_witness :
    ∃ r ∈ sampleDB.reports, r.reportId = "R-00000001" ∧
      (reportToResponse sampleDB sampleReport).location = r.locationRaw :=
  (C5_location_field_rename sampleDB sampleCreate none "R-0F3A9B2C"
      (fun _ => "A-2") 7).2.1 "R-00000001" (reportToResponse sampleDB sampleReport) rfl

/-- C6: the status-update contract.  On a found report, the commit mutates
exactly status and updatedAt (every other field of the row, every other row
and the whole attachment table are unchanged), the stored and returned status
equal the requested value; the notes argument never influences the result;
and a nonexistent id yields the not-found signal (None) with the state
untouched, not an error. -/
theorem C6_update_status_contract (db : DB) (report_id : String)
    (su : ReportStatusUpdate) (now : Nat) :
    (∀ r, db.reports.find? (fun x => x.reportId == report_id) = some r →
       ∃ resp db2,
         ReportService.update_report_status db report_id su now true =
           (Except.ok (some resp), db2) ∧
         db2.attachments = db.attachments ∧
         resp.status = su.status.value ∧ resp.updatedAt = now ∧
         (∃ r2 ∈ db2.reports,
            r2.reportId = r.reportId ∧ r2.status = su.status.value ∧ r2.updatedAt = now ∧
            r2.title = r.title ∧ r2.descriptionText = r.descriptionText ∧
            r2.locationRaw = r.locationRaw ∧ r2.categoryId = r.categoryId ∧
            r2.aiConfidence = r.aiConfidence ∧ r2.createdAt = r.createdAt ∧
            r2.userId = r.userId ∧ r2.transcribedVoiceText = r.transcribedVoiceText) ∧
         (∀ x ∈ db.reports, x.reportId ≠ report_id → x ∈ db2.reports)) ∧
    (∀ notes1 notes2 c,
       ReportService.update_report_status db report_id
           { status := su.status, notes := notes1 } now c =
         ReportService.update_report_status db report_id
           { status := su.status, notes := notes2 } now c) ∧
    (db.reports.find? (fun x => x.reportId == report_id) = none →
       ∀ c, ReportService.update_report_status db report_id su now c =
         (Except.ok none, db)) := by
  refine ⟨?_, ?_, ?_⟩
  · intro r hf
    have hbeq : (r.reportId == report_id) = true := by
      simpa using List.find?_some hf
    have hres : ReportService.update_report_status db report_id su now true =
        (Except.ok (some (reportToResponse
            { db with reports := db.reports.map fun x =>
                if x.reportId == report_id then
                  { x with status := su.status.value, updatedAt := now }
                else x }
            { r with status := su.status.value, updatedAt := now })),
          { db with reports := db.reports.map fun x =>
              if x.reportId == report_id then
                { x with status := su.status.value, updatedAt := now }
              else x }) := by
      unfold ReportService.update_report_status
      rw [hf]
      exact rfl
    refine ⟨_, _, hres, rfl, rfl, rfl, ?_, ?_⟩
    · refine ⟨{ r with status := su.status.value, updatedAt := now }, ?_,
        rfl, rfl, rfl, rfl, rfl, rfl, rfl, rfl, rfl, rfl, rfl⟩
      refine List.mem_map.mpr ⟨r, List.mem_of_find?_eq_some hf, ?_⟩
      simp [hbeq]
    · intro x hx hne
      have hbx : (x.reportId == report_id) = false := by simp [hne]
      exact List.mem_map.mpr ⟨x, hx, by simp [hbx]⟩
  · intro notes1 notes2 c
    rfl
  · intro hf c
    unfold ReportService.update_report_status
    rw [hf]

/-- A status update request as sent by the API tests. -/
def sampleStatusUpdate : ReportStatusUpdate :=
  { status := ReportStatus.assigned, notes := some "Assigned to maintenance team" }

/-- Closed instance of C6_update_status_contract on the sample database:
updating the stored report, notes-independence, and the not-found signal for
a missing id. -/
theorem C6_update_status_contract_witness :
    (∃ resp db2,
       ReportService.update_report_status sampleDB "R-00000001" sampleStatusUpdate 9 true =
         (Except.ok (some resp), db2) ∧
       db2.attachments = sampleDB.attachments ∧
       resp.status = sampleStatusUpdate.status.value ∧ resp.updatedAt = 9 ∧
       (∃ r2 ∈ db2.reports,
          r2.reportId = sampleReport.reportId ∧
          r2.status = sampleStatusUpdate.status.value ∧ r2.updatedAt = 9 ∧
          r2.title = sampleReport.title ∧ r2.descriptionText = sampleReport.descriptionText ∧
          r2.locationRaw = sampleReport.locationRaw ∧ r2.categoryId = sampleReport.categoryId ∧
          r2.aiConfidence = sampleReport.aiConfidence ∧ r2.createdAt = sampleReport.createdAt ∧
          r2.userId = sampleReport.userId ∧
          r2.transcribedVoiceText = sampleReport.transcribedVoiceText) ∧
       (∀ x ∈ sampleDB.reports, x.reportId ≠ "R-00000001" → x ∈ db2.reports)) ∧
    (ReportService.update_report_status sampleDB "R-00000001"
         { status := ReportStatus.assigned, notes := some "Assigned to maintenance team" } 9 true =
       ReportService.update_report_status sampleDB "R-00000001"
         { status := ReportStatus.assigned, notes := none } 9 true) ∧
    (ReportService.update_report_status sampleDB "R-MISSING" sampleStatusUpdate 9 true =
       (Except.ok none, sampleDB)) :=
  ⟨(C6_update_status_contract sampleDB "R-00000001" sampleStatusUpdate 9).1
      sampleReport rfl,
   (C6_update_status_contract sampleDB "R-00000001" sampleStatusUpdate 9).2.1
      (some "Assigned to maintenance team") none true,
   (C6_update_status_contract sampleDB "R-MISSING" sampleStatusUpdate 9).2.2 rfl true⟩

/-- C7: delete semantics.  A missing id yields (False, unchanged state) — so
a second delete of an already deleted id also yields False — and deleting an
existing report removes the report row and every attachment row referencing
it while keeping all unrelated rows, returning True. -/
theorem C7_delete_report_semantics (db : DB) (report_id : String) :
    ((∀ r ∈ db.reports, r.reportId ≠ report_id) →
       ∀ c, ReportService.delete_report db report_id c = (Except.ok false, db)) ∧
    (∀ r, db.reports.find? (fun x => x.reportId == report_id) = some r →
       ∃ db2, ReportService.delete_report db report_id true = (Except.ok true, db2) ∧
         (∀ a ∈ db2.attachments, a.reportId ≠ report_id) ∧
         (∀ x ∈ db2.reports, x.reportId ≠ report_id) ∧
         (∀ a ∈ db.attachments, a.reportId ≠ report_id → a ∈ db2.attachments) ∧
         (∀ x ∈ db.reports, x.reportId ≠ report_id → x ∈ db2.reports) ∧
         (∀ c, ReportService.delete_report db2 report_id c = (Except.ok false, db2))) := by
  constructor
  · intro h c
    have hf : db.reports.find? (fun x => x.reportId == report_id) = none :=
      List.find?_eq_none.mpr fun x hx => by simp [h x hx]
    unfold ReportService.delete_report
    rw [hf]
  · intro r hf
    refine ⟨{ reports := db.reports.filter (fun x => !(x.reportId == report_id))
              attachments := db.attachments.filter (fun a => !(a.reportId == report_id)) },
      ?_, ?_, ?_, ?_, ?_, ?_⟩
    · unfold ReportService.delete_report
      rw [hf]
      exact rfl
    · intro a ha
      simpa using (List.mem_filter.mp ha).2
    · intro x hx
      simpa using (List.mem_filter.mp hx).2
    · intro a ha hne
      exact List.mem_filter.mpr ⟨ha, by simp [hne]⟩
    · intro x hx hne
      exact List.mem_filter.mpr ⟨hx, by simp [hne]⟩
    · intro c
      have hf2 : (db.reports.filter (fun x => !(x.reportId == report_id))).find?
          (fun x => x.reportId == report_id) = none :=
        List.find?_eq_none.mpr fun x hx => by simpa using (List.mem_filter.mp hx).2
      unfold ReportService.delete_report
      rw [hf2]

/-- Closed instance of C7_delete_report_semantics: deleting the sample report
removes it with its attachment and a repeat delete signals False; deleting a
missing id signals False. -/
theorem C7_delete_report_semantics_witness :
    (∃ db2, ReportService.delete_report sampleDB "R-00000001" true = (Except.ok true, db2) ∧
       (∀ a ∈ db2.attachments, a.reportId ≠ "R-00000001") ∧
       (∀ x ∈ db2.reports, x.reportId ≠ "R-00000001") ∧
       (∀ a ∈ sampleDB.attachments, a.reportId ≠ "R-00000001" → a ∈ db2.attachments) ∧
       (∀ x ∈ sampleDB.reports, x.reportId ≠ "R-00000001" → x ∈ db2.reports) ∧
       (∀ c, ReportService.delete_report db2 "R-00000001" c = (Except.ok false, db2))) ∧
    (∀ c, ReportService.delete_report sampleDB "R-MISSING" c = (Except.ok false, sampleDB)) :=
  ⟨(C7_delete_report_semantics sampleDB "R-00000001").2 sampleReport rfl,
   (C7_delete_report_semantics sampleDB "R-MISSING").1 (by decide)⟩

/-- C8: pagination arithmetic of list_reports.  For limit at least 1, page is
skip / limit + 1 (integer division) and totalPages is the ceiling division of
total by limit — equivalently, totalPages pages of size limit cover total and
one page fewer does not (when total is positive); for limit = 0 both page and
totalPages take the explicitly guarded value 1, with no division performed. -/
theorem C8_pagination (db : DB) (skip limit : Nat) (st cat : Option String) :
    (1 ≤ limit →
       (ReportService.list_reports db skip limit st cat).page = skip / limit + 1 ∧
       (ReportService.list_reports db skip limit st cat).totalPages =
         (ReportService.list_reports db skip limit st cat).total ⌈/⌉ limit ∧
       (ReportService.list_reports db skip limit st cat).total ≤
         (ReportService.list_reports db skip limit st cat).totalPages * limit ∧
       (0 < (ReportService.list_reports db skip limit st cat).total →
         ((ReportService.list_reports db skip limit st cat).totalPages - 1) * limit <
           (ReportService.list_reports db skip limit st cat).total)) ∧
    (limit = 0 →
       (ReportService.list_reports db skip limit st cat).page = 1 ∧
       (ReportService.list_reports db skip limit st cat).totalPages = 1) := by
  have hpage : (ReportService.list_reports db skip limit st cat).page =
      if limit > 0 then skip / limit + 1 else 1 := rfl
  have htp : (ReportService.list_reports db skip limit st cat).totalPages =
      if limit > 0 then
        ((ReportService.list_reports db skip limit st cat).total + limit - 1) / limit
      else 1 := rfl
  constructor
  · intro hl
    have hpos : 0 < limit := hl
    refine ⟨?_, ?_, ?_, ?_⟩
    · rw [hpage, if_pos hpos]
    · rw [htp, if_pos hpos, Nat.ceilDiv_eq_add_pred_div]
    · rw [htp, if_pos hpos]
      have h1 := (gc_smul_ceilDiv (α := ℕ) (β := ℕ) hpos).le_u_l
        (ReportService.list_reports db skip limit st cat).total
      simpa [Nat.ceilDiv_eq_add_pred_div, smul_eq_mul, Nat.mul_comm] using h1
    · intro hpos_t
      rw [htp, if_pos hpos]
      have hq : ((ReportService.list_reports db skip limit st cat).total + limit - 1) / limit
          = ((ReportService.list_reports db skip limit st cat).total - 1) / limit + 1 := by
        have he : (ReportService.list_reports db skip limit st cat).total + limit - 1 =
            ((ReportService.list_reports db skip limit st cat).total - 1) + limit := by
          omega
        rw [he, Nat.add_div_right _ hpos]
      rw [hq, Nat.add_sub_cancel]
      have hle : ((ReportService.list_reports db skip limit st cat).total - 1) / limit * limit ≤
          (ReportService.list_reports db skip limit st cat).total - 1 :=
        Nat.div_mul_le_self _ _
      omega
  · intro h0
    subst h0
    exact ⟨by rw [hpage]; rfl, by rw [htp]; rfl⟩

/-- Closed instance of C8_pagination at skip 20, limit 10, and at the guarded
limit 0. -/
theorem C8_pagination_witness :
    ((ReportService.list_reports sampleDB 20 10 none none).page = 20 / 10 + 1 ∧
     (ReportService.list_reports sampleDB 20 10 none none).totalPages =
       (ReportService.list_reports sampleDB 20 10 none none).total ⌈/⌉ 10 ∧
     (ReportService.list_reports sampleDB 20 10 none none).total ≤
       (ReportService.list_reports sampleDB 20 10 none none).totalPages * 10 ∧
     (0 < (ReportService.list_reports sampleDB 20 10 none none).total →
       ((ReportService.list_reports sampleDB 20 10 none none).totalPages - 1) * 10 <
         (ReportService.list_reports sampleDB 20 10 none none).total)) ∧
    ((ReportService.list_reports sampleDB 20 0 none none).page = 1 ∧
     (ReportService.list_reports sampleDB 20 0 none none).totalPages = 1) :=
  ⟨(C8_pagination sampleDB 20 10 none none).1 (by decide),
   (C8_pagination sampleDB 20 0 none none).2 rfl⟩

/-- C9: guards of the role-assignment endpoint.  A non-admin caller is
rejected with the Forbidden outcome, an admin targeting their own id with a
non-admin role is rejected with the InvalidOperation outcome, every non-
updated outcome leaves the user table unchanged, and an updated outcome on
the caller's own id forces the requested role to be admin — an admin can
never remove their own admin role here. -/
theorem C9_assign_role_guards (db : List User) (user_id : String)
    (role_data : UserRole) (cu : User)
    (upd : List User → String → UserRole → List User) :
    (cu.role ≠ "admin" →
       UsersAPI.assign_role db user_id role_data cu upd =
         (AssignRoleOutcome.forbidden "Not authorized. Admin privileges required.", db)) ∧
    (cu.role = "admin" → user_id = cu.userId → role_data ≠ UserRole.admin →
       UsersAPI.assign_role db user_id role_data cu upd =
         (AssignRoleOutcome.invalidOperation "You cannot demote yourself.", db)) ∧
    (∀ out db2, UsersAPI.assign_role db user_id role_data cu upd = (out, db2) →
       out = AssignRoleOutcome.updated ∨ db2 = db) ∧
    ((UsersAPI.assign_role db user_id role_data cu upd).1 = AssignRoleOutcome.updated →
       user_id = cu.userId → role_data = UserRole.admin) := by
  refine ⟨?_, ?_, ?_, ?_⟩
  · intro hne
    simp [UsersAPI.assign_role, UserRole.value, hne]
  · intro ha heq hr
    simp [UsersAPI.assign_role, UserRole.value, ha, heq, hr]
  · intro out db2 h
    unfold UsersAPI.assign_role at h
    split at h
    · injection h with h1 h2
      exact Or.inr h2.symm
    · split at h
      · injection h with h1 h2
        exact Or.inr h2.symm
      · injection h with h1 h2
        exact Or.inl h1.symm
  · intro hupd heq
    by_contra hr
    unfold UsersAPI.assign_role at hupd
    by_cases hc1 : (cu.role != "admin" && cu.role != UserRole.admin.value) = true
    · rw [if_pos hc1] at hupd
      simp at hupd
    · rw [if_neg hc1] at hupd
      have hc2 : (user_id == cu.userId && role_data != UserRole.admin) = true := by
        simp [heq, hr]
      rw [if_pos hc2] at hupd
      simp at hupd

/-- An admin user row. -/
def adminUser : User :=
  { userId := "U-1", isAnonymous := false, createdAt := 0, role := "admin"
    email := none, phoneNumber := none, hashedDeviceId := none }

/-- A citizen user row. -/
def citizenUser : User :=
  { userId := "U-2", isAnonymous := false, createdAt := 1, role := "citizen"
    email := none, phoneNumber := none, hashedDeviceId := none }

/-- Closed instance of C9_assign_role_guards: a citizen caller is Forbidden,
an admin self-demotion to officer is InvalidOperation, a Forbidden outcome
leaves the table unchanged, and an updated self-targeting call carried the
admin role. -/
theorem C9_assign_role_guards_witness :
    (UsersAPI.assign_role [adminUser] "U-9" UserRole.officer citizenUser (fun l _ _ => l) =
       (AssignRoleOutcome.forbidden "Not authorized. Admin privileges required.",
        [adminUser])) ∧
    (UsersAPI.assign_role [adminUser] "U-1" UserRole.officer adminUser (fun l _ _ => l) =
       (AssignRoleOutcome.invalidOperation "You cannot demote yourself.", [adminUser])) ∧
    (AssignRoleOutcome.forbidden "Not authorized. Admin privileges required." =
       AssignRoleOutcome.updated ∨ ([adminUser] : List User) = [adminUser]) ∧
    UserRole.admin = UserRole.admin :=
  ⟨(C9_assign_role_guards [adminUser] "U-9" UserRole.officer citizenUser
      (fun l _ _ => l)).1 (by decide),
   (C9_assign_role_guards [adminUser] "U-1" UserRole.officer adminUser
      (fun l _ _ => l)).2.1 rfl rfl (by decide),
   (C9_assign_role_guards [adminUser] "U-9" UserRole.officer citizenUser
      (fun l _ _ => l)).2.2.1
     (AssignRoleOutcome.forbidden "Not authorized. Admin privileges required.")
     [adminUser]
     ((C9_assign_role_guards [adminUser] "U-9" UserRole.officer citizenUser
        (fun l _ _ => l)).1 (by decide)),
   (C9_assign_role_guards [adminUser] "U-1" UserRole.admin adminUser
      (fun l _ _ => l)).2.2.2 rfl rfl⟩

end MoI
